import Mathlib

/-!
Verification development for the QuantDeck backtesting application.

The TypeScript/JavaScript sources (`server/storage.ts`, `server/routes.ts`
as bundled in `dist/index.js`, `shared/schema.ts`, the React results
dashboard) are shallowly embedded below: pure functions become Lean
functions, the in-memory storage becomes explicit list-valued state,
fallible operations return `Except`/`Option`, and JavaScript numbers are
modelled as rationals (`ℚ`).  The Python numeric engine
(`server/services/backtest_service.py`, `data_service.py`) is not part of
the repository snapshot; where a property depends on it, the engine is
modelled from the design specification and marked as such.
-/

namespace QuantDeck

/-! ## Storage data model (shared/schema.ts, server/storage.ts) -/

/-- A stored strategy record (`strategies` table / `MemStorage.strategies`).
`isActive` is `boolean | null` in the schema, embedded as `Option Bool`
(`none` is the JavaScript `null`/`undefined`, which is falsy). -/
structure Strategy where
  id : String
  name : String
  type : String
  description : String
  isActive : Option Bool
  deriving DecidableEq, Repr

/-- JavaScript truthiness of a `boolean | null` value: only `true` is truthy. -/
def truthy : Option Bool → Bool
  | some b => b
  | none => false

/-- `MemStorage.getStrategies`: `Array.from(this.strategies.values()).filter(s => s.isActive)`. -/
def getStrategies (strategies : List Strategy) : List Strategy :=
  strategies.filter (fun s => truthy s.isActive)

/-- `MemStorage.getStrategy(id)`: `this.strategies.get(id)` — lookup by id,
with no `isActive` condition. -/
def getStrategy (strategies : List Strategy) (id : String) : Option Strategy :=
  strategies.find? (fun s => s.id == id)

/-- A stored market-data row (`market_data` table).  Dates are modelled as
naturals ordered like JavaScript `Date` values. -/
structure MarketData where
  id : String
  ticker : String
  date : ℕ
  openPrice : ℚ
  high : ℚ
  low : ℚ
  close : ℚ
  volume : ℕ
  adjClose : ℚ
  deriving DecidableEq, Repr

/-- `MemStorage.getMarketData(ticker, startDate?, endDate?)`:
filters rows by ticker, then applies the date-range filter only under
`if (startDate && endDate)` — i.e. only when both bounds are present
(`Date` objects are always truthy, absent arguments are `undefined`). -/
def getMarketData (rows : List MarketData) (ticker : String)
    (startDate endDate : Option ℕ) : List MarketData :=
  let data := rows.filter (fun d => d.ticker == ticker)
  match startDate, endDate with
  | some s, some e => data.filter (fun d => decide (s ≤ d.date) && decide (d.date ≤ e))
  | _, _ => data

/-! ## Backtest records and the insert schema (shared/schema.ts, server/routes.ts) -/

/-- A JSON value, as stored in the `jsonb` columns. -/
inductive JsonV where
  | null
  | jbool (b : Bool)
  | jnum (q : ℚ)
  | jstr (s : String)
  | jarr (elems : List JsonV)
  | jobj (fields : List (String × JsonV))

/-- The request body of `POST /api/backtests` before validation: every field
may be absent (`none` is JavaScript `undefined`). -/
structure BacktestBody where
  ticker : Option String
  startDate : Option ℕ
  endDate : Option ℕ
  initialCapital : Option ℚ
  commission : Option ℚ
  strategyConfig : Option JsonV

/-- The output of `insertBacktestSchema.parse`: `ticker`, `startDate`,
`endDate`, `initialCapital` and `strategyConfig` are `notNull` columns
without defaults, hence required; `commission` has a column default and is
optional in the insert schema. -/
structure InsertBacktest where
  ticker : String
  startDate : ℕ
  endDate : ℕ
  initialCapital : ℚ
  commission : Option ℚ
  strategyConfig : JsonV

/-- A stored backtest record (`backtests` table / `MemStorage.backtests`). -/
structure Backtest where
  id : String
  ticker : String
  startDate : ℕ
  endDate : ℕ
  initialCapital : ℚ
  commission : Option ℚ
  strategyConfig : JsonV
  results : Option JsonV
  status : String

/-- `insertBacktestSchema.parse(req.body)`: succeeds exactly when every
required picked column is present; no positivity check is made on
`initialCapital` or `commission` (they are plain `real` columns), and no
price data is consulted.  A zod failure is caught by the route and turned
into the 400 response. -/
def parseInsertBacktest (b : BacktestBody) : Except String InsertBacktest :=
  match b.ticker, b.startDate, b.endDate, b.initialCapital, b.strategyConfig with
  | some t, some sd, some ed, some cap, some cfg =>
      .ok ⟨t, sd, ed, cap, b.commission, cfg⟩
  | _, _, _, _, _ => .error "Invalid backtest configuration"

/-- `MemStorage.createBacktest`: spreads the insert record and sets
`results: null`, `status: "pending"`.  The fresh `randomUUID` is passed in
as `id`. -/
def createBacktest (id : String) (b : InsertBacktest) : Backtest :=
  ⟨id, b.ticker, b.startDate, b.endDate, b.initialCapital, b.commission,
    b.strategyConfig, none, "pending"⟩

/-- `MemStorage.getBacktest(id)`. -/
def getBacktest (store : List Backtest) (id : String) : Option Backtest :=
  store.find? (fun b => b.id == id)

/-- `MemStorage.updateBacktest(id, { status })` as used by the run route. -/
def updateBacktestStatus (store : List Backtest) (id status : String) :
    List Backtest :=
  store.map (fun b => if b.id == id then
    ⟨b.id, b.ticker, b.startDate, b.endDate, b.initialCapital, b.commission,
      b.strategyConfig, b.results, status⟩ else b)

/-- An HTTP response, abstracted to its status code and message. -/
abbrev RouteResponse := ℕ × String

/-- `POST /api/backtests`: parse the body; on success store a new pending
record and return it (modelled as a 200), on failure respond 400 and leave
the store unchanged. -/
def postBacktests (store : List Backtest) (id : String) (body : BacktestBody) :
    RouteResponse × List Backtest :=
  match parseInsertBacktest body with
  | .ok v => ((200, "ok"), store ++ [createBacktest id v])
  | .error _ => ((400, "Invalid backtest configuration"), store)

/-- `POST /api/backtests/:id/run` (server/routes.ts, bundled at
dist/index.js:401-463).  After setting the status to `"running"` the
handler calls `python.stdout.on(...)`, but the spawned process was bound to
the name `pythonScript` and no `python` variable is in scope (the bundler
accordingly renamed the market-data route's local to `python2`).  The
resulting `ReferenceError` is caught by the surrounding `try`/`catch`,
which responds 500 `"Failed to run backtest"`; the `close` callback that
would have set the status to `"completed"` or `"failed"` is never
registered, so the record stays `"running"`. -/
def runBacktestRoute (store : List Backtest) (id : String) :
    RouteResponse × List Backtest :=
  match getBacktest store id with
  | none => ((404, "Backtest not found"), store)
  | some _ =>
      let store1 := updateBacktestStatus store id "running"
      ((500, "Failed to run backtest"), store1)

/-- `Except` success test. -/
def exceptIsOk : Except String α → Bool
  | .ok _ => true
  | .error _ => false

/-- A syntactically valid configuration with negative initial capital and
negative commission. -/
def negCapitalBody : BacktestBody :=
  ⟨some "AAPL", some 100, some 200, some (-100), some (-1), some (JsonV.jarr [])⟩

/-- A configuration missing its ticker. -/
def missingTickerBody : BacktestBody :=
  ⟨none, some 100, some 200, some 100000, some (1/1000), some (JsonV.jarr [])⟩

/-- A concrete pending backtest record as created by the POST route. -/
def demoBacktest : Backtest :=
  createBacktest "bt1" ⟨"AAPL", 100, 200, 100000, some (1/1000), JsonV.jarr []⟩

/-! ## Results dashboard (client ResultsDashboard component) -/

/-- A trade of a `BacktestResults` payload as typed in
client/src/types/trading.ts. -/
structure UITrade where
  entry_date : String
  exit_date : String
  side : String
  entry_price : ℚ
  exit_price : ℚ
  quantity : ℕ
  pnl : ℚ
  return_pct : ℚ
  deriving DecidableEq, Repr

/-- Does `sub` occur as a contiguous run inside `hay`?  (JavaScript
`String.prototype.includes` on the character lists.) -/
def occursIn (sub : List Char) : List Char → Bool
  | [] => sub.isEmpty
  | c :: t => sub.isPrefixOf (c :: t) || occursIn sub t

/-- JavaScript `s.includes(sub)`. -/
def strIncludes (s sub : String) : Bool := occursIn sub.toList s.toList

/-- JavaScript `s.toLowerCase()` restricted to the characters the app
uses. -/
def strLower (s : String) : String := String.map Char.toLower s

/-- The dashboard's text filter: an empty filter is falsy and matches
everything, otherwise the trade matches if its entry date contains the
filter text or its side contains it case-insensitively. -/
def matchesFilter (tradeFilter : String) (t : UITrade) : Bool :=
  (tradeFilter == "") || strIncludes t.entry_date tradeFilter ||
    strIncludes (strLower t.side) (strLower tradeFilter)

/-- The dashboard's type filter: `"all"`, or `"winners"` (`pnl > 0`), or
`"losers"` (`pnl < 0`). -/
def matchesType (tradeType : String) (t : UITrade) : Bool :=
  (tradeType == "all") || ((tradeType == "winners") && decide (t.pnl > 0)) ||
    ((tradeType == "losers") && decide (t.pnl < 0))

/-- `filteredTrades` of the ResultsDashboard component. -/
def filteredTrades (trades : List UITrade) (tradeFilter tradeType : String) :
    List UITrade :=
  trades.filter (fun t => matchesFilter tradeFilter t && matchesType tradeType t)

/-- Modelled from the spec: the `winning_trades` field of the Metrics
record (§3); the producing Metrics Calculator
(server/services/backtest_service.py) is absent from the snapshot, so the
count is computed with the win classification the results dashboard
applies (`trade.pnl > 0`). -/
def winningTradesCount (trades : List UITrade) : ℕ :=
  (trades.filter (fun t => decide (t.pnl > 0))).length

/-- Modelled from the spec: the `losing_trades` field of the Metrics record
(§3), under the dashboard's loss classification (`trade.pnl < 0`). -/
def losingTradesCount (trades : List UITrade) : ℕ :=
  (trades.filter (fun t => decide (t.pnl < 0))).length

/-- The trades the two classifications above both exclude: zero pnl. -/
def zeroPnlCount (trades : List UITrade) : ℕ :=
  (trades.filter (fun t => decide (t.pnl = 0))).length

/-- A round trip that exactly breaks even. -/
def zeroPnlTrade : UITrade :=
  ⟨"2024-01-02", "2024-01-03", "LONG", 100, 100, 1, 0, 0⟩

/-- One cell of the exported CSV: JavaScript `join` receives either a
string field or a numeric field. -/
inductive CsvField where
  | s (v : String)
  | n (v : ℚ)
  deriving DecidableEq, Repr

/-- The export's header row: `["Date", "Type", "Entry", "Exit", "PnL",
"Return %"]`. -/
def csvHeader : List String := ["Date", "Type", "Entry", "Exit", "PnL", "Return %"]

/-- One exported row: `[trade.entry_date, trade.side, trade.entry_price,
trade.exit_price, trade.pnl, trade.return_pct]`. -/
def csvRow (t : UITrade) : List CsvField :=
  [.s t.entry_date, .s t.side, .n t.entry_price, .n t.exit_price,
    .n t.pnl, .n t.return_pct]

/-- `handleExportCSV`: the header row followed by one row per trade of
`filteredTrades` (not of `trades`). -/
def handleExportCSV (trades : List UITrade) (tradeFilter tradeType : String) :
    List (List CsvField) :=
  (csvHeader.map CsvField.s) :: (filteredTrades trades tradeFilter tradeType).map csvRow

/-! ## Backend invocation of the Python services (server/routes.ts) -/

/-- A `child_process.spawn(cmd, args)` invocation. -/
structure SpawnCall where
  cmd : String
  args : List String
  deriving DecidableEq, Repr

/-- How a route reaches the numeric backend: either an in-process call into
a typed function, or a spawned external process. -/
inductive BackendCall where
  | inProcess (callee : String)
  | spawnProcess (call : SpawnCall)
  deriving DecidableEq, Repr

/-- Is the backend reached by spawning a process? -/
def isSpawn : BackendCall → Bool
  | .inProcess _ => false
  | .spawnProcess _ => true

/-- The part of the market-data route's inline Python source that precedes
the interpolated ticker (dist/index.js:309-323); `\x27` is the single
quote, `\x7b`/`\x7d` are braces. -/
def mdScriptPre (dir : String) : String :=
  "\nimport sys\nimport os\nsys.path.append(\x27" ++ dir ++ "\x27)\nos.chdir(\x27" ++ dir ++ "\x27)\nfrom data_service import DataService\nimport json\n\ntry:\n    data = DataService.fetch_stock_data(\x27"

/-- The part of the market-data script that follows the ticker, with the
interpolated start and end dates. -/
def mdScriptDates (startDate endDate : String) : String :=
  "\x27, \x27" ++ startDate ++ "\x27, \x27" ++ endDate ++ "\x27)\n    print(json.dumps(data))\nexcept Exception as e:\n    import traceback\n    print(json.dumps(\x7b\"error\": str(e), \"traceback\": traceback.format_exc()\x7d))\n      "

/-- The `python3 -c` source of the market-data route: the request's ticker
and date-range parameters are interpolated into the program text. -/
def mdScript (dir ticker startDate endDate : String) : String :=
  mdScriptPre dir ++ (ticker ++ mdScriptDates startDate endDate)

/-- The part of the run route's inline Python source preceding the
interpolated ticker (dist/index.js:409-430). -/
def btScriptPre (dir : String) : String :=
  "\nimport sys\nsys.path.append(\x27" ++ dir ++ "\x27)\nfrom backtest_service import BacktestService\nimport json\n\nconfig = \x7b\n    \"ticker\": \""

/-- The part of the run script following the ticker, with the interpolated
dates, capital, commission and strategy-config JSON (all spliced into the
program text as strings). -/
def btScriptRest (startDate endDate capital commission cfgJson : String) : String :=
  "\",\n    \"start_date\": \"" ++ startDate ++ "\",\n    \"end_date\": \"" ++ endDate ++ "\",\n    \"initial_capital\": " ++ capital ++ ",\n    \"commission\": " ++ commission ++ ",\n    \"strategy_config\": " ++ cfgJson ++ "\n\x7d\n\ntry:\n    service = BacktestService()\n    results = service.run_backtest(config)\n    print(json.dumps(results))\nexcept Exception as e:\n    print(json.dumps(\x7b\"error\": str(e)\x7d))\n      "

/-- The `python3 -c` source of the backtest run route. -/
def btScript (dir ticker startDate endDate capital commission cfgJson : String) : String :=
  btScriptPre dir ++ (ticker ++ btScriptRest startDate endDate capital commission cfgJson)

/-- The market-data route's backend invocation:
`spawn("python3", ["-c", script])`. -/
def handleMarketDataRequest (dir ticker startDate endDate : String) : BackendCall :=
  .spawnProcess ⟨"python3", ["-c", mdScript dir ticker startDate endDate]⟩

/-- The run route's backend invocation: `spawn("python3", ["-c", script])`
(the handler then crashes on the undeclared `python`, see
`runBacktestRoute`, but the process has been spawned). -/
def handleBacktestRunInvocation
    (dir ticker startDate endDate capital commission cfgJson : String) : BackendCall :=
  .spawnProcess ⟨"python3",
    ["-c", btScript dir ticker startDate endDate capital commission cfgJson]⟩

/-! ## The backtest engine

`server/services/backtest_service.py` is absent from the repository
snapshot — only its caller (the run route) is present — so the engine below
is modelled from the design specification (§2-§4, §6) and each definition
doing so says what is missing. -/

/-- Modelled from the spec: the per-bar trading signal (§3 SignalSeries);
the emitting Python strategy classes are absent from the snapshot. -/
inductive TradeSignal where
  | longEntry
  | shortEntry
  | exitSignal
  | hold
  deriving DecidableEq, Repr

/-- Modelled from the spec: one OHLCV bar (§3 PriceBar); the Python data
service producing them is absent from the snapshot. -/
structure PriceBar where
  date : ℕ
  openPrice : ℚ
  highPrice : ℚ
  lowPrice : ℚ
  closePrice : ℚ
  volume : ℕ
  deriving DecidableEq, Repr

/-- A strategy: given the price series up to and including the current bar,
emit the signal for that bar, or raise (the wrapped model may fail). -/
abbrev StrategyFun := List PriceBar → Except String TradeSignal

/-- Modelled from the spec: signal generation (§4.2) — the signal for bar
`i` is computed from bars `0..i` only; a raising strategy aborts its own
signal stream.  The Python strategy implementations are absent from the
snapshot. -/
def genSignals (strat : StrategyFun) (bars : List PriceBar) :
    Except String (List TradeSignal) :=
  (List.range bars.length).mapM (fun i => strat (bars.take (i + 1)))

/-- The same signal stream for a strategy that cannot raise. -/
def genSignalsOk (strat : List PriceBar → TradeSignal) (bars : List PriceBar) :
    List TradeSignal :=
  (List.range bars.length).map (fun i => strat (bars.take (i + 1)))

/-- Modelled from the spec: the fill price for the signal emitted at bar
`i` is bar `i + 1`'s open (§4.3) — never bar `i`'s close; at the last bar
there is no next open, so no fill. -/
def fillPriceAt (bars : List PriceBar) (i : ℕ) : Option ℚ :=
  (bars[i + 1]?).map (fun b => b.openPrice)

/-- The Execution Simulator's position side. -/
inductive PosSide where
  | flat
  | long
  | short
  deriving DecidableEq, Repr

/-- Sign of a side for pnl and portfolio valuation. -/
def dirSign : PosSide → ℚ
  | .long => 1
  | .short => -1
  | .flat => 0

/-- Modelled from the spec: an immutable Trade record (§3), created when a
position closes, with `pnl` and `return_pct` recomputed from entry/exit
price, quantity and commission. -/
structure SimTrade where
  entryDate : ℕ
  exitDate : ℕ
  side : PosSide
  entryPrice : ℚ
  exitPrice : ℚ
  quantity : ℕ
  pnl : ℚ
  returnPct : ℚ
  deriving DecidableEq, Repr

/-- Modelled from the spec: the Execution Simulator's per-run mutable state
(§3 Position plus cash, ledger and equity series). -/
structure SimState where
  side : PosSide
  quantity : ℕ
  entryPrice : ℚ
  entryDate : ℕ
  entryCommission : ℚ
  cash : ℚ
  trades : List SimTrade
  equity : List ℚ
  deriving DecidableEq, Repr

/-- The simulator's initial state: flat, all capital in cash. -/
def initState (cap : ℚ) : SimState := ⟨.flat, 0, 0, 0, 0, cap, [], []⟩

/-- Modelled from the spec: closing the open position at `price` (§4.3):
`pnl = (exit - entry) * quantity * sign - entry commission - exit
commission`, `return_pct = pnl / (entry * quantity)`, one Trade emitted. -/
def closePosition (commRate price : ℚ) (date : ℕ) (st : SimState) : SimState :=
  let exitComm := commRate * price * st.quantity
  let pnl := (price - st.entryPrice) * st.quantity * dirSign st.side -
    st.entryCommission - exitComm
  let rp := if st.entryPrice * st.quantity = 0 then 0
    else pnl / (st.entryPrice * st.quantity)
  let cashDelta := match st.side with
    | .long => price * st.quantity - exitComm
    | .short => (st.entryPrice - price) * st.quantity - exitComm
    | .flat => 0
  ⟨.flat, 0, 0, 0, 0, st.cash + cashDelta,
    st.trades ++ [⟨st.entryDate, date, st.side, st.entryPrice, price,
      st.quantity, pnl, rp⟩],
    st.equity⟩

/-- Modelled from the spec: opening a position at `price` (§4.3):
`quantity = floor(available_capital / fill_price)`; if that is zero the
entry is silently skipped; commission `rate * price * quantity` is deducted
from cash. -/
def openPosition (commRate : ℚ) (side : PosSide) (price : ℚ) (date : ℕ)
    (st : SimState) : SimState :=
  let qty : ℕ := (Rat.floor (st.cash / price)).toNat
  if qty = 0 then st else
  let comm := commRate * price * qty
  let cashDelta := match side with
    | .long => -(price * qty) - comm
    | _ => -comm
  ⟨side, qty, price, date, comm, st.cash + cashDelta, st.trades, st.equity⟩

/-- Modelled from the spec: one bar of the Execution Simulator (§4.3).
First the equity point for bar `i` is marked at bar `i`'s close with the
position held through that close; then the signal emitted at bar `i` fills
at bar `i + 1`'s open (`fillPriceAt`): entries open from flat, EXIT or an
opposite-direction entry closes, HOLD and same-direction signals do
nothing; at the last bar there is no next open, so no transition. -/
def stepBar (commRate : ℚ) (bars : List PriceBar) (st : SimState) (i : ℕ)
    (s : TradeSignal) : SimState :=
  let stMarked := match bars[i]? with
    | some bar =>
        ⟨st.side, st.quantity, st.entryPrice, st.entryDate, st.entryCommission,
          st.cash, st.trades,
          st.equity ++ [st.cash + dirSign st.side * bar.closePrice * st.quantity]⟩
    | none => st
  match fillPriceAt bars i, (bars[i + 1]?).map (fun b => b.date) with
  | some fill, some fdate =>
      match stMarked.side, s with
      | .flat, .longEntry => openPosition commRate .long fill fdate stMarked
      | .flat, .shortEntry => openPosition commRate .short fill fdate stMarked
      | .long, .exitSignal => closePosition commRate fill fdate stMarked
      | .long, .shortEntry => closePosition commRate fill fdate stMarked
      | .short, .exitSignal => closePosition commRate fill fdate stMarked
      | .short, .longEntry => closePosition commRate fill fdate stMarked
      | _, _ => stMarked
  | _, _ => stMarked

/-- Modelled from the spec: the Execution Simulator over a whole run
(§4.3): fold the bars in order, then force-close any still-open position at
the last bar's close so every run ends flat. -/
def simulate (commRate : ℚ) (bars : List PriceBar) (signals : List TradeSignal)
    (cap : ℚ) : SimState :=
  let final := (List.range bars.length).foldl
    (fun st i => stepBar commRate bars st i (signals.getD i .hold))
    (initState cap)
  match bars.getLast? with
  | some lastBar =>
      if final.side = PosSide.flat then final
      else closePosition commRate lastBar.closePrice lastBar.date final
  | none => final

/-- Modelled from the spec: the Metrics record (§3, §4.4), restricted to
its rational fields; `sharpe_ratio` and `cagr` involve square roots and
real exponents and stay outside the rational model.  `profit_factor` is
`none` (the explicit undefined marker) when there are no losers. -/
structure Metrics where
  totalReturn : ℚ
  maxDrawdown : ℚ
  winRate : ℚ
  totalTrades : ℕ
  winningTrades : ℕ
  losingTrades : ℕ
  avgWin : ℚ
  avgLoss : ℚ
  profitFactor : Option ℚ
  finalValue : ℚ
  deriving DecidableEq, Repr

/-- Running-peak drawdown fold: tracks the peak so far and the most
negative `(equity - peak) / peak`. -/
def drawdownFold : List ℚ → ℚ → ℚ → ℚ
  | [], _, worst => worst
  | e :: rest, peak, worst =>
      let peak1 := max peak e
      let ddHere := if peak1 = 0 then 0 else (e - peak1) / peak1
      drawdownFold rest peak1 (min worst ddHere)

/-- Modelled from the spec: `max_drawdown` reported as a non-positive
ratio (§4.4). -/
def maxDrawdownQ (equity : List ℚ) : ℚ := drawdownFold equity 0 0

/-- Modelled from the spec: the Metrics Calculator (§4.4), a pure function
of the equity series, the trade ledger and the initial capital; the Python
implementation is absent from the snapshot. -/
def computeMetrics (equity : List ℚ) (trades : List SimTrade) (cap : ℚ) :
    Metrics :=
  let finalValue := equity.getLastD cap
  let winners := trades.filter (fun t => decide (t.pnl > 0))
  let losers := trades.filter (fun t => decide (t.pnl < 0))
  let grossWin := (winners.map (fun t => t.pnl)).sum
  let grossLoss := (losers.map (fun t => t.pnl)).sum
  ⟨finalValue / cap - 1,
    maxDrawdownQ equity,
    (if trades.length = 0 then 0 else (winners.length : ℚ) / trades.length),
    trades.length, winners.length, losers.length,
    (if winners.length = 0 then 0 else grossWin / winners.length),
    (if losers.length = 0 then 0 else grossLoss / losers.length),
    (if grossLoss = 0 then none else some (grossWin / |grossLoss|)),
    finalValue⟩

/-- Modelled from the spec: one result record crossing the engine boundary
(§3 BacktestResult). -/
structure BacktestResult where
  strategyId : String
  equitySeries : List ℚ
  trades : List SimTrade
  metrics : Metrics
  deriving DecidableEq, Repr

/-- Modelled from the spec: `run_backtest` (§6): reject configuration
errors before any simulation (empty series, non-positive capital or
commission), surface a strategy that raises as a StrategyRuntimeError, and
otherwise run signals → simulator → metrics. -/
def run_backtest (bars : List PriceBar) (stratId : String) (strat : StrategyFun)
    (cap commRate : ℚ) : Except String BacktestResult :=
  if bars.isEmpty then .error "ConfigurationError: empty price series"
  else if cap ≤ 0 then .error "ConfigurationError: non-positive initial capital"
  else if commRate ≤ 0 then .error "ConfigurationError: non-positive commission"
  else match genSignals strat bars with
    | .error e => .error ("StrategyRuntimeError: " ++ e)
    | .ok sigs =>
        let st := simulate commRate bars sigs cap
        .ok ⟨stratId, st.equity, st.trades, computeMetrics st.equity st.trades cap⟩

/-- Modelled from the spec: comparison mode (§4.5, §6 `compare`): each
strategy runs independently against the same series and capital, failures
are isolated per strategy, and the result list preserves the input
order. -/
def compare (bars : List PriceBar) (strats : List (String × StrategyFun))
    (cap commRate : ℚ) : List (Except String BacktestResult) :=
  strats.map (fun p => run_backtest bars p.1 p.2 cap commRate)

/-- A two-bar demonstration price series. -/
def demoBars : List PriceBar :=
  [⟨1, 100, 110, 90, 105, 1000⟩, ⟨2, 106, 112, 95, 108, 1000⟩]

/-- A strategy that always holds and never raises. -/
def demoOkStrat : StrategyFun := fun _ => .ok .hold

/-- A strategy whose wrapped model raises on every bar. -/
def demoErrStrat : StrategyFun := fun _ => .error "model raised"

end QuantDeck

namespace QuantDeck

/-! ## Theorems for the storage queries -/

/-- C10: `getStrategies` returns exactly the stored strategies whose
`isActive` field is `true` (false or null strategies are omitted), while
`getStrategy id` looks a strategy up by its id with no `isActive`
condition. -/
theorem getStrategies_active_getStrategy_by_id
    (strategies : List Strategy) (id : String) (s : Strategy) :
    (s ∈ getStrategies strategies ↔ s ∈ strategies ∧ s.isActive = some true) ∧
    (getStrategy strategies id = some s → s ∈ strategies ∧ s.id = id) := by
  constructor
  · unfold getStrategies
    rw [List.mem_filter]
    constructor
    · rintro ⟨hm, ht⟩
      refine ⟨hm, ?_⟩
      cases h : s.isActive with
      | none => rw [h] at ht; simp [truthy] at ht
      | some b =>
        rw [h] at ht
        cases b with
        | false => simp [truthy] at ht
        | true => rfl
    · rintro ⟨hm, ht⟩
      exact ⟨hm, by rw [ht]; rfl⟩
  · intro h
    unfold getStrategy at h
    have hmem := List.mem_of_find?_eq_some h
    have hp := List.find?_some h
    exact ⟨hmem, by simpa using hp⟩

/-- Witness for C10: in a one-element store holding a strategy with
`isActive = some false`, `getStrategy` returns it by id even though
`getStrategies` omits it. -/
theorem getStrategies_active_getStrategy_by_id_witness :
    ((⟨"s1", "RSI", "technical", "osc", some false⟩ : Strategy) ∈
      [(⟨"s1", "RSI", "technical", "osc", some false⟩ : Strategy)] ∧
      (Strategy.id ⟨"s1", "RSI", "technical", "osc", some false⟩) = "s1") ∧
    getStrategies [⟨"s1", "RSI", "technical", "osc", some false⟩] = [] := by
  have h : getStrategy [⟨"s1", "RSI", "technical", "osc", some false⟩] "s1" =
      some ⟨"s1", "RSI", "technical", "osc", some false⟩ := by rfl
  exact ⟨(getStrategies_active_getStrategy_by_id
    [⟨"s1", "RSI", "technical", "osc", some false⟩] "s1"
    ⟨"s1", "RSI", "technical", "osc", some false⟩).2 h, rfl⟩

/-- C9: `getMarketData` returns exactly the rows for the ticker, restricted
to `[startDate, endDate]` inclusive only when both bounds are given; with
exactly one bound given, no date filtering happens. -/
theorem getMarketData_range_only_when_both_bounds
    (rows : List MarketData) (ticker : String) (s e : ℕ) (d : MarketData) :
    (d ∈ getMarketData rows ticker (some s) (some e) ↔
      d ∈ rows ∧ d.ticker = ticker ∧ s ≤ d.date ∧ d.date ≤ e) ∧
    (d ∈ getMarketData rows ticker (some s) none ↔
      d ∈ rows ∧ d.ticker = ticker) ∧
    (d ∈ getMarketData rows ticker none (some e) ↔
      d ∈ rows ∧ d.ticker = ticker) := by
  unfold getMarketData
  refine ⟨?_, ?_, ?_⟩ <;> (simp [List.mem_filter, and_assoc]; try tauto)

/-! ## Theorems for the backtest configuration routes -/

/-- C2 counterexample: a configuration whose `initialCapital` is `-100` and
whose `commission` is `-1` passes `insertBacktestSchema.parse` and a
pending backtest record is created for it — it is not rejected with a
`ConfigurationError` before simulation. -/
theorem nonpositive_capital_config_accepted :
    negCapitalBody.initialCapital = some (-100) ∧
    negCapitalBody.commission = some (-1) ∧
    exceptIsOk (parseInsertBacktest negCapitalBody) = true ∧
    (postBacktests [] "bt0" negCapitalBody).2.map (fun b => b.status) =
      ["pending"] :=
  ⟨rfl, rfl, rfl, rfl⟩

/-- C2 amended: the submitted configuration is rejected (HTTP 400, no
record created) exactly when one of the required picked fields — ticker,
startDate, endDate, initialCapital, strategyConfig — is absent; positivity
of capital or commission and non-emptiness of the price series are not
checked at submission time. -/
theorem insertBacktest_rejects_exactly_missing_fields
    (body : BacktestBody) (store : List Backtest) (id : String) :
    (exceptIsOk (parseInsertBacktest body) = true ↔
      body.ticker ≠ none ∧ body.startDate ≠ none ∧ body.endDate ≠ none ∧
      body.initialCapital ≠ none ∧ body.strategyConfig ≠ none) ∧
    (exceptIsOk (parseInsertBacktest body) = false →
      postBacktests store id body = ((400, "Invalid backtest configuration"), store)) := by
  obtain ⟨t, sd, ed, cap, comm, cfg⟩ := body
  constructor
  · cases t <;> cases sd <;> cases ed <;> cases cap <;> cases cfg <;>
      simp [parseInsertBacktest, exceptIsOk]
  · intro h
    unfold postBacktests
    cases hp : parseInsertBacktest ⟨t, sd, ed, cap, comm, cfg⟩ with
    | ok v => rw [hp] at h; simp [exceptIsOk] at h
    | error e => rfl

/-- Witness for C2's amended theorem: the configuration missing its ticker
is rejected with a 400 and the store is left unchanged. -/
theorem insertBacktest_rejects_exactly_missing_fields_witness :
    postBacktests [] "bt0" missingTickerBody =
      ((400, "Invalid backtest configuration"), []) :=
  (insertBacktest_rejects_exactly_missing_fields missingTickerBody [] "bt0").2 rfl

/-- C8: a record created by `createBacktest` starts `"pending"` with null
results, but running the run route on an existing backtest responds 500 and
leaves the record's status at `"running"` — it is never set to
`"completed"` or `"failed"`, because the handler dereferences the
undeclared name `python` (the spawn was bound to `pythonScript`) and the
`ReferenceError` skips the status-updating `close` callback. -/
theorem run_route_leaves_status_running :
    demoBacktest.status = "pending" ∧
    demoBacktest.results = none ∧
    (runBacktestRoute [demoBacktest] "bt1").1 = (500, "Failed to run backtest") ∧
    (runBacktestRoute [demoBacktest] "bt1").2.map (fun b => b.status) =
      ["running"] :=
  ⟨rfl, rfl, rfl, rfl⟩

/-! ## Theorems for the results dashboard -/

/-- C6 counterexample: with the win/loss classification the dashboard
applies (`pnl > 0` wins, `pnl < 0` losses), a result containing one
break-even trade has `winning_trades + losing_trades = 0` but
`total_trades = 1`, so the invariant fails. -/
theorem win_loss_sum_fails_on_zero_pnl :
    zeroPnlTrade.pnl = 0 ∧
    winningTradesCount [zeroPnlTrade] + losingTradesCount [zeroPnlTrade] ≠
      ([zeroPnlTrade] : List UITrade).length := by
  refine ⟨rfl, ?_⟩
  decide

/-- C6 amended: zero-pnl trades are excluded from both counts, so
`winning_trades + losing_trades + zero-pnl trades = total_trades` — the sum
equals `total_trades` exactly when no trade breaks even; and the dashboard's
winners/losers trade filter uses the same classification as the counts. -/
theorem win_loss_zero_partition (trades : List UITrade) :
    winningTradesCount trades + losingTradesCount trades + zeroPnlCount trades =
      trades.length ∧
    filteredTrades trades "" "winners" = trades.filter (fun t => decide (t.pnl > 0)) ∧
    filteredTrades trades "" "losers" = trades.filter (fun t => decide (t.pnl < 0)) := by
  refine ⟨?_, ?_, ?_⟩
  · induction trades with
    | nil => rfl
    | cons t ts ih =>
      unfold winningTradesCount losingTradesCount zeroPnlCount at ih ⊢
      rcases lt_trichotomy t.pnl 0 with h | h | h
      · have h1 : ¬ (t.pnl > 0) := lt_asymm h
        have h2 : t.pnl ≠ 0 := ne_of_lt h
        simp only [gt_iff_lt] at ih
        simp [List.filter_cons, h, h1, h2]
        omega
      · have h1 : ¬ (t.pnl > 0) := by rw [h]; exact lt_irrefl 0
        have h2 : ¬ (t.pnl < 0) := by rw [h]; exact lt_irrefl 0
        simp only [gt_iff_lt] at ih
        simp [List.filter_cons, h, h1, h2]
        omega
      · have h1 : ¬ (t.pnl < 0) := lt_asymm h
        have h2 : t.pnl ≠ 0 := ne_of_gt h
        simp only [gt_iff_lt] at ih
        simp [List.filter_cons, h, h1, h2]
        omega
  · unfold filteredTrades
    refine List.filter_congr ?_
    intro t _
    simp [matchesFilter, matchesType]
  · unfold filteredTrades
    refine List.filter_congr ?_
    intro t _
    simp [matchesFilter, matchesType]

/-- C7 counterexample: with the winners-only type filter active, the CSV
export of a result holding one break-even trade contains the header row
only — the trade is not exported — and the exported row shape has six
columns that include neither the trade's exit date nor its quantity. -/
theorem export_csv_omits_trades_and_fields :
    (handleExportCSV [zeroPnlTrade] "" "winners").length = 1 ∧
    ([zeroPnlTrade] : List UITrade).length = 1 ∧
    (csvRow zeroPnlTrade).length = 6 ∧
    CsvField.s zeroPnlTrade.exit_date ∉ csvRow zeroPnlTrade ∧
    CsvField.n (zeroPnlTrade.quantity : ℚ) ∉ csvRow zeroPnlTrade := by
  refine ⟨?_, rfl, rfl, ?_, ?_⟩ <;> decide

/-- C7 amended: the CSV export serializes exactly the currently filtered
trades (every trade only in the default state: empty text filter, type
`"all"`), and each row carries the columns Date, Type, Entry, Exit, PnL,
Return % = entry_date, side, entry_price, exit_price, pnl, return_pct;
exit_date and quantity are not part of the export. -/
theorem export_csv_rows_characterization
    (trades : List UITrade) (f ty : String) (t : UITrade) :
    handleExportCSV trades f ty =
      (csvHeader.map CsvField.s) :: (filteredTrades trades f ty).map csvRow ∧
    csvRow t = [CsvField.s t.entry_date, CsvField.s t.side,
      CsvField.n t.entry_price, CsvField.n t.exit_price,
      CsvField.n t.pnl, CsvField.n t.return_pct] ∧
    filteredTrades trades "" "all" = trades := by
  refine ⟨rfl, rfl, ?_⟩
  unfold filteredTrades
  have h : ∀ x ∈ trades, (matchesFilter "" x && matchesType "all" x) = true := by
    intro x _
    rfl
  rw [List.filter_congr h, List.filter_true]

/-! ## Helper lemmas on substring occurrence -/

/-- A list is a prefix of itself followed by anything. -/
theorem isPrefixOf_self_append (s t : List Char) : s.isPrefixOf (s ++ t) = true := by
  induction s with
  | nil => simp [List.isPrefixOf]
  | cons c cs ih => simp [List.isPrefixOf, ih]

/-- A prefix of the haystack occurs in it. -/
theorem occursIn_of_isPrefixOf (sub hay : List Char)
    (h : sub.isPrefixOf hay = true) : occursIn sub hay = true := by
  cases hay with
  | nil =>
    cases sub with
    | nil => rfl
    | cons c cs => simp [List.isPrefixOf] at h
  | cons c t => simp [occursIn, h]

/-- `sub` occurs in `pre ++ (sub ++ post)`. -/
theorem occursIn_pre_self_post (pre sub post : List Char) :
    occursIn sub (pre ++ (sub ++ post)) = true := by
  induction pre with
  | nil =>
    rw [List.nil_append]
    exact occursIn_of_isPrefixOf sub (sub ++ post) (isPrefixOf_self_append sub post)
  | cons c cs ih => simp [occursIn, ih]

/-- String-level containment of the middle of a concatenation. -/
theorem strIncludes_append_middle (a t b : String) :
    strIncludes (a ++ (t ++ b)) t = true := by
  unfold strIncludes
  have h : (a ++ (t ++ b)).toList = a.toList ++ (t.toList ++ b.toList) := by
    simp [String.toList, String.data_append]
  rw [h]
  exact occursIn_pre_self_post a.toList t.toList b.toList

/-! ## Theorems for the backend invocation (C1) -/

/-- C1 counterexample: at a concrete market-data request and a concrete
backtest run, the backend is reached by spawning a `python3` process, and
the request's ticker parameter is spliced into the program text by string
interpolation — not an in-process call across a typed boundary. -/
theorem backend_spawn_counterexample :
    isSpawn (handleMarketDataRequest "/repo/server/services" "AAPL"
      "2024-01-01" "2024-06-30") = true ∧
    isSpawn (handleBacktestRunInvocation "/repo/server/services" "AAPL"
      "2024-01-01" "2024-06-30" "100000" "0.001" "[]") = true ∧
    strIncludes (mdScript "/repo/server/services" "AAPL" "2024-01-01"
      "2024-06-30") "AAPL" = true ∧
    strIncludes (btScript "/repo/server/services" "AAPL" "2024-01-01"
      "2024-06-30" "100000" "0.001" "[]") "AAPL" = true :=
  ⟨rfl, rfl,
    strIncludes_append_middle (mdScriptPre "/repo/server/services") "AAPL"
      (mdScriptDates "2024-01-01" "2024-06-30"),
    strIncludes_append_middle (btScriptPre "/repo/server/services") "AAPL"
      (btScriptRest "2024-01-01" "2024-06-30" "100000" "0.001" "[]")⟩

/-- C1 amended: every market-data request and every backtest run reaches
the numeric backend by spawning a separate `python3 -c` process, and every
request's ticker parameter is passed by string interpolation into the
program text handed to that process. -/
theorem backend_spawns_process_per_request
    (dir ticker startDate endDate capital commission cfgJson : String) :
    handleMarketDataRequest dir ticker startDate endDate =
      BackendCall.spawnProcess ⟨"python3", ["-c", mdScript dir ticker startDate endDate]⟩ ∧
    strIncludes (mdScript dir ticker startDate endDate) ticker = true ∧
    handleBacktestRunInvocation dir ticker startDate endDate capital commission cfgJson =
      BackendCall.spawnProcess ⟨"python3",
        ["-c", btScript dir ticker startDate endDate capital commission cfgJson]⟩ ∧
    strIncludes (btScript dir ticker startDate endDate capital commission cfgJson)
      ticker = true :=
  ⟨rfl,
    strIncludes_append_middle (mdScriptPre dir) ticker (mdScriptDates startDate endDate),
    rfl,
    strIncludes_append_middle (btScriptPre dir) ticker
      (btScriptRest startDate endDate capital commission cfgJson)⟩

/-! ## Theorems for the engine (C3, C4, C5) -/

/-- C3: the fill price for the signal emitted at bar `i` is bar `i + 1`'s
open — never bar `i`'s close — and the signal for bar `i` is computed from
the history truncated to bars `0..i`, so truncating the history visible to
signal generation never changes the fill price used for that signal. -/
theorem fill_is_next_open_no_lookahead
    (strat : List PriceBar → TradeSignal) (bars : List PriceBar) (i : ℕ)
    (h : i + 1 < bars.length) :
    fillPriceAt bars i = some (bars[i + 1].openPrice) ∧
    (genSignalsOk strat bars)[i]? = some (strat (bars.take (i + 1))) ∧
    (genSignalsOk strat bars)[i]? = (genSignalsOk strat (bars.take (i + 1)))[i]? := by
  have hi : i < bars.length := Nat.lt_of_succ_lt h
  have hfull : (genSignalsOk strat bars)[i]? = some (strat (bars.take (i + 1))) := by
    unfold genSignalsOk
    rw [List.getElem?_map, List.getElem?_range hi]
    rfl
  refine ⟨?_, hfull, ?_⟩
  · unfold fillPriceAt
    rw [List.getElem?_eq_getElem h]
    rfl
  · rw [hfull]
    unfold genSignalsOk
    have hlen : (bars.take (i + 1)).length = i + 1 := by
      rw [List.length_take]
      exact Nat.min_eq_left (Nat.succ_le_of_lt hi)
    rw [List.getElem?_map, hlen, List.getElem?_range (Nat.lt_succ_self i)]
    simp [List.take_take]

/-- Witness for C3 at a concrete two-bar series: the fill for the signal at
bar 0 is bar 1's open (106), and the bar-0 signal agrees with the one the
truncated one-bar history produces. -/
theorem fill_is_next_open_no_lookahead_witness :
    fillPriceAt demoBars 0 = some ((demoBars.get ⟨1, by decide⟩).openPrice) ∧
    (genSignalsOk (fun _ => TradeSignal.hold) demoBars)[0]? =
      some ((fun _ => TradeSignal.hold) (demoBars.take 1)) ∧
    (genSignalsOk (fun _ => TradeSignal.hold) demoBars)[0]? =
      (genSignalsOk (fun _ => TradeSignal.hold) (demoBars.take 1))[0]? :=
  fill_is_next_open_no_lookahead (fun _ => TradeSignal.hold) demoBars 0 (by decide)

/-- C4: `run_backtest` is a deterministic function of its inputs — two
invocations with identical price series, strategy (including any
deterministic model mock it wraps), capital and commission produce
identical BacktestResult values. -/
theorem run_backtest_deterministic
    (bars1 bars2 : List PriceBar) (id1 id2 : String) (s1 s2 : StrategyFun)
    (cap1 cap2 comm1 comm2 : ℚ)
    (hb : bars1 = bars2) (hi : id1 = id2) (hs : s1 = s2)
    (hc : cap1 = cap2) (hm : comm1 = comm2) :
    run_backtest bars1 id1 s1 cap1 comm1 = run_backtest bars2 id2 s2 cap2 comm2 := by
  subst hb hi hs hc hm
  rfl

/-- Witness for C4: two runs over the demonstration series with the same
hold strategy and parameters coincide. -/
theorem run_backtest_deterministic_witness :
    run_backtest demoBars "ma" demoOkStrat 1000 (1 / 1000) =
      run_backtest demoBars "ma" demoOkStrat 1000 (1 / 1000) :=
  run_backtest_deterministic demoBars demoBars "ma" "ma" demoOkStrat demoOkStrat
    1000 1000 (1 / 1000) (1 / 1000) rfl rfl rfl rfl rfl

/-- C5: in comparison mode a strategy that raises during signal generation
aborts only its own run: for a batch of three strategies whose middle one
raises, the result list has exactly three entries in input order — the
successful first and third runs and one distinct failure in the middle. -/
theorem compare_isolates_strategy_failure
    (bars : List PriceBar) (id0 id1 id2 : String) (s0 s1 s2 : StrategyFun)
    (cap comm : ℚ) (e : String)
    (h0 : exceptIsOk (run_backtest bars id0 s0 cap comm) = true)
    (h1 : run_backtest bars id1 s1 cap comm = Except.error e)
    (h2 : exceptIsOk (run_backtest bars id2 s2 cap comm) = true) :
    compare bars [(id0, s0), (id1, s1), (id2, s2)] cap comm =
      [run_backtest bars id0 s0 cap comm, Except.error e,
        run_backtest bars id2 s2 cap comm] ∧
    ((compare bars [(id0, s0), (id1, s1), (id2, s2)] cap comm).length = 3 ∧
      (compare bars [(id0, s0), (id1, s1), (id2, s2)] cap comm).countP exceptIsOk = 2 ∧
      (compare bars [(id0, s0), (id1, s1), (id2, s2)] cap comm).countP
        (fun r => !(exceptIsOk r)) = 1) := by
  have hc : compare bars [(id0, s0), (id1, s1), (id2, s2)] cap comm =
      [run_backtest bars id0 s0 cap comm, Except.error e,
        run_backtest bars id2 s2 cap comm] := by
    unfold compare
    simp [h1]
  have he : exceptIsOk (Except.error e : Except String BacktestResult) = false := rfl
  refine ⟨hc, ?_, ?_, ?_⟩
  · rw [hc]; rfl
  · rw [hc]
    simp [List.countP_cons, h0, h2, he]
  · rw [hc]
    simp [List.countP_cons, h0, h2, he]

/-- Witness for C5: a concrete batch of three strategies over the
demonstration series, the middle one raising, yields three entries with two
successes and one failure. -/
theorem compare_isolates_strategy_failure_witness :
    (compare demoBars [("a", demoOkStrat), ("b", demoErrStrat), ("c", demoOkStrat)]
      1000 (1 / 1000)).length = 3 ∧
    (compare demoBars [("a", demoOkStrat), ("b", demoErrStrat), ("c", demoOkStrat)]
      1000 (1 / 1000)).countP exceptIsOk = 2 ∧
    (compare demoBars [("a", demoOkStrat), ("b", demoErrStrat), ("c", demoOkStrat)]
      1000 (1 / 1000)).countP (fun r => !(exceptIsOk r)) = 1 :=
  (compare_isolates_strategy_failure demoBars "a" "b" "c" demoOkStrat demoErrStrat
    demoOkStrat 1000 (1 / 1000) ("StrategyRuntimeError: " ++ "model raised")
    (by with_unfolding_all rfl) (by with_unfolding_all rfl)
    (by with_unfolding_all rfl)).2

end QuantDeck
